import Mathlib

set_option maxRecDepth 40000

/-!
Shallow embedding of the telemetry decoding layer (`src/common/telemetry.rs`),
the reading-staleness tracker (`src/common/rpm.rs`) and the supervisor loop of
`src/dr2g27/main.rs` of the FH5G27 repository, together with theorems settling
the specification claims about them.

IEEE-754 binary32 values appear in the source only as decoded bit patterns that
are compared (`==`, `>`, `>=`); no float arithmetic is performed.  We therefore
model an `f32` by its 32-bit pattern and give the comparison operators their
IEEE semantics: every comparison with a NaN is false, `-0.0 == 0.0`, and
non-NaN values are ordered by their signed-magnitude integer key.
-/

namespace FH5G27

/-- An IEEE-754 binary32 value, represented by its 32-bit pattern. -/
structure F32 where
  bits : Nat
deriving DecidableEq, Repr

/-- Sign bit of a binary32 pattern. -/
def F32.sign (x : F32) : Nat := x.bits / 2 ^ 31 % 2

/-- Magnitude (exponent and mantissa) of a binary32 pattern. -/
def F32.magnitude (x : F32) : Nat := x.bits % 2 ^ 31

/-- Biased exponent field of a binary32 pattern. -/
def F32.exponentField (x : F32) : Nat := x.bits / 2 ^ 23 % 2 ^ 8

/-- Mantissa field of a binary32 pattern. -/
def F32.mantissaField (x : F32) : Nat := x.bits % 2 ^ 23

/-- A binary32 pattern encodes a NaN when its exponent field is all ones and
its mantissa field is nonzero. -/
def F32.isNaN (x : F32) : Bool := x.exponentField == 255 && x.mantissaField != 0

/-- Signed-magnitude integer key: for non-NaN values, the IEEE ordering of the
encoded reals coincides with the integer ordering of these keys, and value
equality coincides with key equality (both zeroes map to key 0). -/
def F32.key (x : F32) : Int :=
  if x.sign = 1 then -(x.magnitude : Int) else (x.magnitude : Int)

/-- Rust `f32 == f32` (IEEE equality): false whenever a NaN is involved,
otherwise equality of encoded values. -/
def F32.beq (a b : F32) : Bool := !a.isNaN && !b.isNaN && a.key == b.key

/-- Rust `f32 > f32` (IEEE greater-than). -/
def F32.gt (a b : F32) : Bool := !a.isNaN && !b.isNaN && decide (b.key < a.key)

/-- Rust `f32 >= f32` (IEEE greater-or-equal). -/
def F32.ge (a b : F32) : Bool := !a.isNaN && !b.isNaN && decide (b.key ≤ a.key)

/-- The pattern of `0.0f32`. -/
def F32.zero : F32 := ⟨0⟩

/-- A byte buffer as received from the socket; entries are byte values. -/
abbrev Bytes := List Nat

/-- The byte at index `i` of the buffer (0 out of range; in-range accesses are
the only ones the decoders perform, as proved below). -/
def byteAt (d : Bytes) (i : Nat) : Nat := d.getD i 0

/-- The little-endian 32-bit pattern starting at byte offset `i`. -/
def u32At (d : Bytes) (i : Nat) : Nat :=
  byteAt d i + 256 * byteAt d (i + 1) + 65536 * byteAt d (i + 2) +
    16777216 * byteAt d (i + 3)

/-- `f32_from_byte_slice(&data[i..i+4])` of `telemetry.rs`: `none` models the
panic of out-of-range slicing / `try_from().expect(..)`. -/
def f32_from_byte_slice (d : Bytes) (i : Nat) : Option F32 :=
  if i + 4 ≤ d.length then some ⟨u32At d i⟩ else none

/-- `i32_from_byte_slice(&data[i..i+4])` of `telemetry.rs`: the two's-complement
value of the little-endian 32-bit pattern at offset `i`. -/
def i32_from_byte_slice (d : Bytes) (i : Nat) : Option Int :=
  if i + 4 ≤ d.length then
    some (if u32At d i < 2 ^ 31 then (u32At d i : Int) else (u32At d i : Int) - 2 ^ 32)
  else none

/-- The `(current_rpm, max_rpm, idle_rpm, is_race_active)` tuple returned by
`TelemetryParser::parse_rpm_data`. -/
structure Reading where
  current_rpm : F32
  max_rpm : F32
  idle_rpm : F32
  is_race_active : Bool
deriving DecidableEq, Repr

/-- The `(0.0, 0.0, 0.0, false)` sentinel reading. -/
def sentinelReading : Reading := ⟨F32.zero, F32.zero, F32.zero, false⟩

/-- The `GameType` enum of `telemetry.rs`. -/
inductive GameType
  | DirtRally2
  | ForzaHorizon5
deriving DecidableEq, Repr

/-- `expected_packet_size` of the two `TelemetryParser` impls. -/
def GameType.expected_packet_size : GameType → Nat
  | .DirtRally2 => 264
  | .ForzaHorizon5 => 232

/-- `game_name` of the two `TelemetryParser` impls. -/
def GameType.game_name : GameType → String
  | .DirtRally2 => "DiRT Rally 2.0"
  | .ForzaHorizon5 => "Forza Horizon 5"

/-- `default_port` of `GameType`. -/
def GameType.default_port : GameType → Nat
  | .DirtRally2 => 20777
  | .ForzaHorizon5 => 9999

namespace DirtRally2

/-- `DirtRally2Parser::parse_rpm_data` (telemetry.rs lines 36-49). -/
def parse_rpm_data (data : Bytes) : Option Reading :=
  if data.length < GameType.DirtRally2.expected_packet_size then
    some (⟨F32.zero, F32.zero, F32.zero, false⟩ : Reading)
  else do
    let current_rpm ← f32_from_byte_slice data 148
    let max_rpm ← f32_from_byte_slice data 252
    let idle_rpm ← f32_from_byte_slice data 256
    let is_race_active := F32.gt max_rpm F32.zero && F32.ge current_rpm F32.zero
    some ⟨current_rpm, max_rpm, idle_rpm, is_race_active⟩

end DirtRally2

namespace ForzaHorizon5

/-- `ForzaHorizon5Parser::parse_rpm_data` (telemetry.rs lines 64-81). -/
def parse_rpm_data (data : Bytes) : Option Reading :=
  if data.length < GameType.ForzaHorizon5.expected_packet_size then
    some (⟨F32.zero, F32.zero, F32.zero, false⟩ : Reading)
  else do
    let flag ← i32_from_byte_slice data 0
    let is_race_on := flag == 1
    if !is_race_on then
      some (⟨F32.zero, F32.zero, F32.zero, false⟩ : Reading)
    else do
      let max_rpm ← f32_from_byte_slice data 8
      let idle_rpm ← f32_from_byte_slice data 12
      let current_rpm ← f32_from_byte_slice data 16
      some ⟨current_rpm, max_rpm, idle_rpm, is_race_on⟩

end ForzaHorizon5

/-- `GameType::parser().parse_rpm_data(..)`: dispatch to the selected game's
decoder. -/
def GameType.parse_rpm_data : GameType → Bytes → Option Reading
  | .DirtRally2 => DirtRally2.parse_rpm_data
  | .ForzaHorizon5 => ForzaHorizon5.parse_rpm_data

/-- Rust tuple equality `(f32, f32, f32, bool) == (f32, f32, f32, bool)` used
by `RPM::update` (rpm.rs line 44): componentwise, floats by IEEE equality. -/
def readingEq (a b : Reading) : Bool :=
  F32.beq a.current_rpm b.current_rpm && F32.beq a.max_rpm b.max_rpm &&
    F32.beq a.idle_rpm b.idle_rpm && (a.is_race_active == b.is_race_active)

/-- The `RPM` tracker state of `rpm.rs`. -/
structure RPM where
  current : F32
  max : F32
  idle : F32
  staleness : Nat
  is_race_active : Bool
deriving DecidableEq, Repr

/-- `RPM::STALENESS_THRESHOLD`. -/
def RPM.STALENESS_THRESHOLD : Nat := 5

/-- `RPM::new()` — all-zero defaults. -/
def RPM.new : RPM := ⟨F32.zero, F32.zero, F32.zero, 0, false⟩

/-- `RPM::increment_staleness`. -/
def RPM.increment_staleness (s : RPM) : RPM :=
  if s.staleness < RPM.STALENESS_THRESHOLD then
    { s with staleness := s.staleness + 1 }
  else s

/-- `RPM::reset_staleness`. -/
def RPM.reset_staleness (s : RPM) : RPM :=
  if s.staleness != 0 then { s with staleness := 0 } else s

/-- `RPM::is_stale`. -/
def RPM.is_stale (s : RPM) : Bool := RPM.STALENESS_THRESHOLD ≤ s.staleness

/-- The stored tuple `(self.current, self.max, self.idle, self.is_race_active)`
compared against the freshly decoded tuple in `RPM::update`. -/
def RPM.reading (s : RPM) : Reading := ⟨s.current, s.max, s.idle, s.is_race_active⟩

/-- `RPM::update` (rpm.rs lines 41-53); `none` propagates a decoder panic,
which is proved unreachable. -/
def RPM.update (s : RPM) (data : Bytes) (g : GameType) : Option RPM :=
  (g.parse_rpm_data data).map fun r =>
    if readingEq s.reading r then
      s.increment_staleness
    else
      { s.reset_staleness with
        current := r.current_rpm, max := r.max_rpm, idle := r.idle_rpm,
        is_race_active := r.is_race_active }

/-- `n` consecutive `update` calls with the same datagram and game. -/
def RPM.updateN (g : GameType) (data : Bytes) : Nat → RPM → Option RPM
  | 0, s => some s
  | n + 1, s => (s.update data g).bind (RPM.updateN g data n)

/-- A whole session history: fold `update` over a list of (game, datagram)
inputs. -/
def RPM.runUpdates : List (GameType × Bytes) → RPM → Option RPM
  | [], s => some s
  | (g, d) :: rest, s => (s.update d g).bind (RPM.runUpdates rest)

/-! ### Helper lemmas about buffer accesses -/

lemma byteAt_take_eq {d d' : Bytes} {n : Nat} (h : d.take n = d'.take n)
    {i : Nat} (hi : i < n) : byteAt d i = byteAt d' i := by
  have h1 : d[i]? = d'[i]? := by
    have h2 := congrArg (fun l : Bytes => l[i]?) h
    simpa [List.getElem?_take, hi] using h2
  simp [byteAt, List.getD_eq_getElem?_getD, h1]

lemma u32At_take_eq {d d' : Bytes} {n : Nat} (h : d.take n = d'.take n)
    {i : Nat} (hi : i + 4 ≤ n) : u32At d i = u32At d' i := by
  unfold u32At
  rw [byteAt_take_eq h (by omega), byteAt_take_eq h (by omega),
    byteAt_take_eq h (by omega), byteAt_take_eq h (by omega)]

lemma f32_from_byte_slice_of_le {d : Bytes} {i : Nat} (h : i + 4 ≤ d.length) :
    f32_from_byte_slice d i = some ⟨u32At d i⟩ := by
  unfold f32_from_byte_slice
  rw [if_pos h]

lemma i32_from_byte_slice_of_le {d : Bytes} (h : 4 ≤ d.length) :
    i32_from_byte_slice d 0 =
      some (if u32At d 0 < 2 ^ 31 then (u32At d 0 : Int)
            else (u32At d 0 : Int) - 2 ^ 32) := by
  unfold i32_from_byte_slice
  rw [if_pos (by omega)]

/-! ### Shape lemmas for the two decoders -/

/-- On a full-size buffer, Profile A extracts the floats at offsets 148, 252
and 256 and derives `race_active` from them. -/
lemma DirtRally2.parse_fields_eq {d : Bytes} (h : 264 ≤ d.length) :
    DirtRally2.parse_rpm_data d =
      some ⟨⟨u32At d 148⟩, ⟨u32At d 252⟩, ⟨u32At d 256⟩,
        F32.gt ⟨u32At d 252⟩ F32.zero && F32.ge ⟨u32At d 148⟩ F32.zero⟩ := by
  unfold DirtRally2.parse_rpm_data
  rw [if_neg (by simp [GameType.expected_packet_size]; omega)]
  rw [f32_from_byte_slice_of_le (by omega), f32_from_byte_slice_of_le (by omega),
    f32_from_byte_slice_of_le (by omega)]
  rfl

/-- On a full-size buffer, Profile B branches on the two's-complement value of
the leading 32-bit field: when it is 1 it extracts the floats at offsets 16, 8
and 12, otherwise it returns the sentinel. -/
lemma ForzaHorizon5.parse_flag_eq {d : Bytes} (h : 232 ≤ d.length) {v : Int}
    (hv : i32_from_byte_slice d 0 = some v) :
    ForzaHorizon5.parse_rpm_data d =
      if v = 1 then some ⟨⟨u32At d 16⟩, ⟨u32At d 8⟩, ⟨u32At d 12⟩, true⟩
      else some sentinelReading := by
  unfold ForzaHorizon5.parse_rpm_data
  rw [if_neg (by simp [GameType.expected_packet_size]; omega)]
  show (i32_from_byte_slice d 0).bind _ = _
  rw [hv, Option.some_bind]
  by_cases h1 : v = 1
  · subst h1
    rw [if_pos rfl]
    show (if !((1 : Int) == 1) then _ else _) = _
    rw [if_neg (by decide)]
    rw [f32_from_byte_slice_of_le (by omega), f32_from_byte_slice_of_le (by omega),
      f32_from_byte_slice_of_le (by omega)]
    rfl
  · rw [if_neg h1]
    show (if !(v == 1 : Bool) then _ else _) = _
    rw [if_pos (by simp [h1])]
    rfl

/-- C1, part for Profile B: decoding a full-size buffer never hits the
out-of-bounds branch. -/
lemma ForzaHorizon5.parse_isSome {d : Bytes} (h : 232 ≤ d.length) :
    (ForzaHorizon5.parse_rpm_data d).isSome = true := by
  rw [ForzaHorizon5.parse_flag_eq h (i32_from_byte_slice_of_le (by omega))]
  split <;> split <;> rfl

/-! ### Claim theorems: the decoder -/

/-- C1: for either profile, a buffer shorter than the declared packet size
(264 for Profile A, 232 for Profile B) decodes to the sentinel reading
`(0.0, 0.0, 0.0, false)` without error; for a buffer at least as long, the
decoder never takes the out-of-bounds branch of slice indexing (`isSome`), and
its result depends only on the bytes below offset 260 (Profile A) resp. 20
(Profile B), i.e. every slice access lies within the declared packet length. -/
theorem C1_decoder_bounds (d d' : Bytes) :
    (∀ g : GameType, d.length < g.expected_packet_size →
      g.parse_rpm_data d = some sentinelReading) ∧
    (∀ g : GameType, g.expected_packet_size ≤ d.length →
      (g.parse_rpm_data d).isSome = true) ∧
    (264 ≤ d.length → 264 ≤ d'.length → d.take 260 = d'.take 260 →
      GameType.DirtRally2.parse_rpm_data d = GameType.DirtRally2.parse_rpm_data d') ∧
    (232 ≤ d.length → 232 ≤ d'.length → d.take 20 = d'.take 20 →
      GameType.ForzaHorizon5.parse_rpm_data d =
        GameType.ForzaHorizon5.parse_rpm_data d') := by
  refine ⟨?_, ?_, ?_, ?_⟩
  · intro g h
    cases g
    · show DirtRally2.parse_rpm_data d = some sentinelReading
      unfold DirtRally2.parse_rpm_data
      rw [if_pos h]
      rfl
    · show ForzaHorizon5.parse_rpm_data d = some sentinelReading
      unfold ForzaHorizon5.parse_rpm_data
      rw [if_pos h]
      rfl
  · intro g h
    cases g
    · show (DirtRally2.parse_rpm_data d).isSome = true
      rw [DirtRally2.parse_fields_eq h]
      rfl
    · exact ForzaHorizon5.parse_isSome h
  · intro h h' ht
    show DirtRally2.parse_rpm_data d = DirtRally2.parse_rpm_data d'
    rw [DirtRally2.parse_fields_eq h, DirtRally2.parse_fields_eq h',
      u32At_take_eq ht (show 148 + 4 ≤ 260 by omega),
      u32At_take_eq ht (show 252 + 4 ≤ 260 by omega),
      u32At_take_eq ht (show 256 + 4 ≤ 260 by omega)]
  · intro h h' ht
    show ForzaHorizon5.parse_rpm_data d = ForzaHorizon5.parse_rpm_data d'
    rw [ForzaHorizon5.parse_flag_eq h (i32_from_byte_slice_of_le (by omega)),
      ForzaHorizon5.parse_flag_eq h' (i32_from_byte_slice_of_le (by omega)),
      u32At_take_eq ht (show 0 + 4 ≤ 20 by omega),
      u32At_take_eq ht (show 8 + 4 ≤ 20 by omega),
      u32At_take_eq ht (show 12 + 4 ≤ 20 by omega),
      u32At_take_eq ht (show 16 + 4 ≤ 20 by omega)]

/-- C1 witness: a 100-byte buffer decodes to the sentinel under Profile A, a
full-size Profile B buffer decodes without hitting the out-of-bounds branch,
and two full-size Profile A buffers agreeing below offset 260 decode equally. -/
theorem C1_decoder_bounds_witness :
    GameType.DirtRally2.parse_rpm_data (List.replicate 100 7) = some sentinelReading ∧
    (GameType.ForzaHorizon5.parse_rpm_data (List.replicate 232 0)).isSome = true ∧
    GameType.DirtRally2.parse_rpm_data (List.replicate 264 0) =
      GameType.DirtRally2.parse_rpm_data (List.replicate 260 0 ++ List.replicate 4 9) :=
  ⟨(C1_decoder_bounds (List.replicate 100 7) []).1 .DirtRally2 (by decide),
   (C1_decoder_bounds (List.replicate 232 0) []).2.1 .ForzaHorizon5 (by decide),
   (C1_decoder_bounds (List.replicate 264 0)
       (List.replicate 260 0 ++ List.replicate 4 9)).2.2.1
     (by decide) (by decide) (by decide)⟩

/-- C2: any buffer whose leading little-endian 32-bit integer is not 1 decodes
to the sentinel under Profile B, regardless of the remaining content; buffers
shorter than the declared size (including those too short to hold the flag)
also decode to the sentinel via the length guard. -/
theorem C2_flag_gate (d : Bytes)
    (h : ∀ v : Int, i32_from_byte_slice d 0 = some v → v ≠ 1) :
    GameType.ForzaHorizon5.parse_rpm_data d = some sentinelReading := by
  show ForzaHorizon5.parse_rpm_data d = some sentinelReading
  by_cases hlen : d.length < 232
  · unfold ForzaHorizon5.parse_rpm_data
    rw [if_pos (by simpa [GameType.expected_packet_size] using hlen)]
    rfl
  · have hlen' : (232 : Nat) ≤ d.length := by omega
    have hv := i32_from_byte_slice_of_le (d := d) (by omega)
    rw [ForzaHorizon5.parse_flag_eq hlen' hv, if_neg (h _ hv)]

/-- C2 witness: a full-size all-zero Profile B buffer (flag 0) decodes to the
sentinel. -/
theorem C2_flag_gate_witness :
    GameType.ForzaHorizon5.parse_rpm_data (List.replicate 232 0) = some sentinelReading :=
  C2_flag_gate (List.replicate 232 0) (by
    intro v hv
    rw [(by decide : i32_from_byte_slice (List.replicate 232 0) 0 = some 0)] at hv
    cases hv
    decide)

/-- C8: on every full-size Profile A buffer the decoded `race_active` field is
exactly `max_rpm > 0.0 && current_rpm >= 0.0` on the decoded float fields. -/
theorem C8_dirt_race_active (d : Bytes) (h : 264 ≤ d.length) :
    ∃ r : Reading, GameType.DirtRally2.parse_rpm_data d = some r ∧
      r.is_race_active = (F32.gt r.max_rpm F32.zero && F32.ge r.current_rpm F32.zero) :=
  ⟨_, DirtRally2.parse_fields_eq h, rfl⟩

/-- C8 witness: the rule instantiated on a concrete full-size buffer. -/
theorem C8_dirt_race_active_witness :
    ∃ r : Reading, GameType.DirtRally2.parse_rpm_data (List.replicate 264 0) = some r ∧
      r.is_race_active = (F32.gt r.max_rpm F32.zero && F32.ge r.current_rpm F32.zero) :=
  C8_dirt_race_active (List.replicate 264 0) (by decide)

/-- The §8 example Profile A packet: 1500.0f at offset 148, 7000.0f at 252,
800.0f at 256, total length 264 (bytes little-endian). -/
def exampleBufferA : Bytes :=
  List.replicate 148 0 ++ [0, 128, 187, 68] ++ List.replicate 100 0 ++
    [0, 192, 218, 69] ++ [0, 0, 72, 68] ++ List.replicate 4 0

/-- The §8 example Profile B packet: i32 flag 1 at offset 0, 7000.0f at 8,
800.0f at 12, 1500.0f at 16, total length 232. -/
def exampleBufferB : Bytes :=
  [1, 0, 0, 0] ++ List.replicate 4 0 ++ [0, 192, 218, 69] ++ [0, 0, 72, 68] ++
    [0, 128, 187, 68] ++ List.replicate 212 0

/-- C9: Profile A decodes current/max/idle RPM from the little-endian floats at
offsets 148/252/256 of any full-size buffer; Profile B with leading flag 1
decodes max/idle/current from offsets 8/12/16; and the §8 example packets
decode to `(1500.0, 7000.0, 800.0, true)` (bit patterns `0x44BB8000`,
`0x45DAC000`, `0x44480000`). -/
theorem C9_field_offsets (d e : Bytes) :
    (264 ≤ d.length →
      GameType.DirtRally2.parse_rpm_data d =
        some ⟨⟨u32At d 148⟩, ⟨u32At d 252⟩, ⟨u32At d 256⟩,
          F32.gt ⟨u32At d 252⟩ F32.zero && F32.ge ⟨u32At d 148⟩ F32.zero⟩) ∧
    (232 ≤ e.length → i32_from_byte_slice e 0 = some 1 →
      GameType.ForzaHorizon5.parse_rpm_data e =
        some ⟨⟨u32At e 16⟩, ⟨u32At e 8⟩, ⟨u32At e 12⟩, true⟩) ∧
    GameType.DirtRally2.parse_rpm_data exampleBufferA =
      some ⟨⟨0x44BB8000⟩, ⟨0x45DAC000⟩, ⟨0x44480000⟩, true⟩ ∧
    GameType.ForzaHorizon5.parse_rpm_data exampleBufferB =
      some ⟨⟨0x44BB8000⟩, ⟨0x45DAC000⟩, ⟨0x44480000⟩, true⟩ := by
  refine ⟨fun h => DirtRally2.parse_fields_eq h, ?_, by decide, by decide⟩
  intro h hv
  show ForzaHorizon5.parse_rpm_data e = _
  rw [ForzaHorizon5.parse_flag_eq h hv, if_pos rfl]

/-- C9 witness: the general offset statements instantiated on the §8 example
packets themselves. -/
theorem C9_field_offsets_witness :
    GameType.DirtRally2.parse_rpm_data exampleBufferA =
      some ⟨⟨u32At exampleBufferA 148⟩, ⟨u32At exampleBufferA 252⟩,
        ⟨u32At exampleBufferA 256⟩,
        F32.gt ⟨u32At exampleBufferA 252⟩ F32.zero &&
          F32.ge ⟨u32At exampleBufferA 148⟩ F32.zero⟩ ∧
    GameType.ForzaHorizon5.parse_rpm_data exampleBufferB =
      some ⟨⟨u32At exampleBufferB 16⟩, ⟨u32At exampleBufferB 8⟩,
        ⟨u32At exampleBufferB 12⟩, true⟩ :=
  ⟨(C9_field_offsets exampleBufferA []).1 (by decide),
   (C9_field_offsets [] exampleBufferB).2.1 (by decide) (by decide)⟩

/-! ### Claim theorems: the Reading Tracker -/

/-- When the freshly decoded tuple equals the stored tuple, `update` only
increments the staleness counter. -/
lemma RPM.update_of_eq {s : RPM} {g : GameType} {d : Bytes} {r : Reading}
    (hp : g.parse_rpm_data d = some r) (he : readingEq s.reading r = true) :
    s.update d g = some s.increment_staleness := by
  unfold RPM.update
  rw [hp]
  show some (if readingEq s.reading r then _ else _) = _
  rw [he, if_pos rfl]

/-- When the freshly decoded tuple differs from the stored tuple, `update`
resets the staleness counter and overwrites all four stored fields. -/
lemma RPM.update_of_ne {s : RPM} {g : GameType} {d : Bytes} {r : Reading}
    (hp : g.parse_rpm_data d = some r) (he : readingEq s.reading r = false) :
    s.update d g = some ⟨r.current_rpm, r.max_rpm, r.idle_rpm, 0, r.is_race_active⟩ := by
  unfold RPM.update
  rw [hp]
  show some (if readingEq s.reading r then _ else _) = _
  rw [he, if_neg (by simp)]
  unfold RPM.reset_staleness
  by_cases h0 : s.staleness = 0
  · rw [if_neg (by simp [h0])]
    simp [h0]
  · rw [if_pos (by simp [h0])]

/-- Iterating `update` with a datagram that keeps decoding to the stored tuple
adds exactly `N` to the staleness counter and changes nothing else, as long as
the counter stays within the threshold. -/
lemma RPM.updateN_of_eq {g : GameType} {d : Bytes} {r : Reading}
    (hp : g.parse_rpm_data d = some r) (N : Nat) :
    ∀ s : RPM, readingEq s.reading r = true → s.staleness + N ≤ 5 →
      RPM.updateN g d N s = some { s with staleness := s.staleness + N } := by
  induction N with
  | zero => intro s he hN; simp [RPM.updateN]
  | succ n ih =>
      intro s he hN
      have h1 : s.update d g = some { s with staleness := s.staleness + 1 } := by
        rw [RPM.update_of_eq hp he]
        unfold RPM.increment_staleness
        rw [if_pos (by unfold RPM.STALENESS_THRESHOLD; omega)]
      show (s.update d g).bind (RPM.updateN g d n) = _
      rw [h1, Option.some_bind,
        ih { s with staleness := s.staleness + 1 } he (by simp; omega)]
      have : s.staleness + 1 + n = s.staleness + (n + 1) := by omega
      simp [this]

/-- C3: feeding the tracker `N` datagrams that decode to a tuple equal (under
Rust `==` on `(f32, f32, f32, bool)`) to the stored tuple leaves the four
stored fields unchanged and adds exactly `N` to the staleness counter while
`staleness + N ≤ 5`, with `is_stale` becoming true exactly when the counter
reaches the threshold 5; one update whose decoded tuple differs resets the
counter to 0 and overwrites all four fields in the same call, after which
`is_stale` is false. -/
theorem C3_tracker_transitions :
    (∀ (s : RPM) (g : GameType) (d : Bytes) (r : Reading) (N : Nat),
      g.parse_rpm_data d = some r → readingEq s.reading r = true →
      s.staleness + N ≤ 5 →
      RPM.updateN g d N s = some { s with staleness := s.staleness + N } ∧
      RPM.is_stale { s with staleness := s.staleness + N } =
        decide (s.staleness + N = 5)) ∧
    (∀ (s : RPM) (g : GameType) (d : Bytes) (r : Reading),
      g.parse_rpm_data d = some r → readingEq s.reading r = false →
      s.update d g = some ⟨r.current_rpm, r.max_rpm, r.idle_rpm, 0, r.is_race_active⟩ ∧
      RPM.is_stale ⟨r.current_rpm, r.max_rpm, r.idle_rpm, 0, r.is_race_active⟩ = false) := by
  constructor
  · intro s g d r N hp he hN
    refine ⟨RPM.updateN_of_eq hp N s he hN, ?_⟩
    show decide (RPM.STALENESS_THRESHOLD ≤ s.staleness + N) = _
    unfold RPM.STALENESS_THRESHOLD
    exact decide_eq_decide.2 (by omega)
  · intro s g d r hp he
    exact ⟨RPM.update_of_ne hp he, rfl⟩

/-- C3 witness: from the fresh tracker, five identical sentinel datagrams raise
the counter to the threshold (stale), and one differing datagram (the §8
Profile B example) resets it. -/
theorem C3_tracker_transitions_witness :
    (RPM.updateN .ForzaHorizon5 [] 5 RPM.new =
      some ⟨F32.zero, F32.zero, F32.zero, 5, false⟩ ∧
      RPM.is_stale ⟨F32.zero, F32.zero, F32.zero, 5, false⟩ = decide ((0 : Nat) + 5 = 5)) ∧
    ((⟨F32.zero, F32.zero, F32.zero, 5, false⟩ : RPM).update exampleBufferB .ForzaHorizon5 =
      some ⟨⟨0x44BB8000⟩, ⟨0x45DAC000⟩, ⟨0x44480000⟩, 0, true⟩ ∧
      RPM.is_stale ⟨⟨0x44BB8000⟩, ⟨0x45DAC000⟩, ⟨0x44480000⟩, 0, true⟩ = false) :=
  ⟨C3_tracker_transitions.1 RPM.new .ForzaHorizon5 [] sentinelReading 5
      (by decide) (by decide) (by decide),
   C3_tracker_transitions.2 ⟨F32.zero, F32.zero, F32.zero, 5, false⟩ .ForzaHorizon5
      exampleBufferB ⟨⟨0x44BB8000⟩, ⟨0x45DAC000⟩, ⟨0x44480000⟩, true⟩
      (by decide) (by decide)⟩

/-- A single `update` never drives the staleness counter above 5. -/
lemma RPM.update_staleness_le {s s' : RPM} {d : Bytes} {g : GameType}
    (h : s.update d g = some s') (hs : s.staleness ≤ 5) : s'.staleness ≤ 5 := by
  cases hparse : g.parse_rpm_data d with
  | none =>
      unfold RPM.update at h
      rw [hparse] at h
      cases h
  | some r =>
      by_cases he : readingEq s.reading r = true
      · rw [RPM.update_of_eq hparse he] at h
        cases Option.some.inj h
        unfold RPM.increment_staleness
        by_cases hlt : s.staleness < RPM.STALENESS_THRESHOLD
        · rw [if_pos hlt]
          show s.staleness + 1 ≤ 5
          unfold RPM.STALENESS_THRESHOLD at hlt
          omega
        · rw [if_neg hlt]
          exact hs
      · rw [RPM.update_of_ne hparse (by simpa using he)] at h
        cases Option.some.inj h
        exact Nat.zero_le 5

/-- The staleness bound is preserved along any session history. -/
lemma RPM.runUpdates_staleness_le :
    ∀ (inputs : List (GameType × Bytes)) (s s' : RPM), s.staleness ≤ 5 →
      RPM.runUpdates inputs s = some s' → s'.staleness ≤ 5
  | [], _, _, hs, h => by cases h; exact hs
  | (g, d) :: rest, s, s', hs, h => by
      unfold RPM.runUpdates at h
      cases hu : s.update d g with
      | none => rw [hu] at h; cases h
      | some t =>
          rw [hu, Option.some_bind] at h
          exact RPM.runUpdates_staleness_le rest t s'
            (RPM.update_staleness_le hu hs) h

/-- C4: along every sequence of `update` calls from `RPM::new()`, the staleness
counter stays in `0..=5` — in particular it never exceeds 5, however many
repeats arrive past the threshold. -/
theorem C4_staleness_bounded (inputs : List (GameType × Bytes)) (s' : RPM)
    (h : RPM.runUpdates inputs RPM.new = some s') : s'.staleness ≤ 5 :=
  RPM.runUpdates_staleness_le inputs RPM.new s' (by decide) h

/-- C4 witness: ten identical sentinel datagrams from the fresh tracker leave
the counter saturated at 5. -/
theorem C4_staleness_bounded_witness :
    (⟨F32.zero, F32.zero, F32.zero, 5, false⟩ : RPM).staleness ≤ 5 :=
  C4_staleness_bounded (List.replicate 10 (.ForzaHorizon5, []))
    ⟨F32.zero, F32.zero, F32.zero, 5, false⟩ (by decide)

/-- C10: a decoded tuple containing a NaN in any float field never compares
equal to the stored tuple under Rust `==`, so such an update always takes the
reset branch: the counter becomes 0, all four fields are overwritten, and the
resulting state is not stale. -/
theorem C10_nan_resets (s : RPM) (g : GameType) (d : Bytes) (r : Reading)
    (hp : g.parse_rpm_data d = some r)
    (hn : r.current_rpm.isNaN = true ∨ r.max_rpm.isNaN = true ∨
      r.idle_rpm.isNaN = true) :
    readingEq s.reading r = false ∧
    s.update d g = some ⟨r.current_rpm, r.max_rpm, r.idle_rpm, 0, r.is_race_active⟩ ∧
    RPM.is_stale ⟨r.current_rpm, r.max_rpm, r.idle_rpm, 0, r.is_race_active⟩ = false := by
  have hne : readingEq s.reading r = false := by
    unfold readingEq F32.beq
    rcases hn with h | h | h <;> simp [h]
  exact ⟨hne, RPM.update_of_ne hp hne, rfl⟩

/-- A Profile B packet with flag 1 whose current-RPM field holds the NaN
pattern `0x7FC00000`. -/
def nanBufferB : Bytes :=
  [1, 0, 0, 0] ++ List.replicate 12 0 ++ [0, 0, 192, 127] ++ List.replicate 212 0

/-- C10 witness: a Profile B packet carrying the NaN pattern `0x7FC00000` as
current RPM takes the reset branch even against the fresh tracker. -/
theorem C10_nan_resets_witness :
    readingEq RPM.new.reading ⟨⟨0x7FC00000⟩, F32.zero, F32.zero, true⟩ = false ∧
    RPM.new.update nanBufferB .ForzaHorizon5 =
      some ⟨⟨0x7FC00000⟩, F32.zero, F32.zero, 0, true⟩ ∧
    RPM.is_stale ⟨⟨0x7FC00000⟩, F32.zero, F32.zero, 0, true⟩ = false :=
  C10_nan_resets RPM.new .ForzaHorizon5 nanBufferB
    ⟨⟨0x7FC00000⟩, F32.zero, F32.zero, true⟩ (by decide) (Or.inl (by decide))

/-! ### The Bridge Supervisor (`src/dr2g27/main.rs`)

The worker thread of `run` repeatedly calls `connect_and_bridge`; we model the
control flow of both as functions of an explicit environment (device-discovery
results, handle-open results, the error that eventually ends a stream, the
exit-flag reading at the top of each outer iteration).  Waits are modelled as
explicit operation traces (`sleepMs` / `pollExitFlag`) read off the code. -/

/-- Modelled from the spec: the two recoverable failure kinds of §7
(`SocketBind` / `DeviceLost`).  The enum itself (`DR2G27Error`) lives in
`util.rs`, which is not part of the provided sources, but the exhaustive match
in `main.rs` lines 303-312 fixes exactly these two variants. -/
inductive DR2G27Error
  | DR2UdpSocketError
  | G27ConnectionLostError
deriving DecidableEq, Repr

/-- Primitive operations a supervisor wait performs, in order. -/
inductive WorkerOp
  | sleepMs (n : Nat)
  | pollExitFlag
deriving DecidableEq, Repr

/-- The wait run by the worker after a classified failure (`main.rs` lines
315-321): fifty iterations, each polling the exit flag and then sleeping
100 ms — for either error kind, since the `match` on the error (lines 303-312)
only selects the status message. -/
def errorBackoffWait (e : DR2G27Error) : List WorkerOp :=
  match e with
  | _ => (List.replicate 50 [WorkerOp.pollExitFlag, WorkerOp.sleepMs 100]).flatten

/-- The status message the worker reports for each failure kind (`main.rs`
lines 303-312). -/
def errorStatusMessage : DR2G27Error → String
  | .DR2UdpSocketError => "UDP Socket Error - retrying in 5 seconds..."
  | .G27ConnectionLostError => "G27 connection lost - retrying in 2 seconds..."

/-- The wait at the bottom of `connect_and_bridge`'s device-discovery loop
(`main.rs` line 152): one uninterrupted 5-second sleep, no exit-flag poll. -/
def discoveryRetryWait : List WorkerOp := [WorkerOp.sleepMs 5000]

/-- The wait after `connect_and_bridge` returns `Ok` (`main.rs` line 325): one
uninterrupted 1-second sleep. -/
def bridgeRestartWait : List WorkerOp := [WorkerOp.sleepMs 1000]

/-- Total milliseconds slept by a wait. -/
def sleepTotal (ops : List WorkerOp) : Nat :=
  ops.foldl (fun acc op => match op with | .sleepMs n => acc + n | _ => acc) 0

/-- Number of exit-flag polls a wait performs. -/
def pollCount (ops : List WorkerOp) : Nat :=
  ops.countP fun op => op == WorkerOp.pollExitFlag

/-- The longest stretch of sleeping not broken by an exit-flag poll: an upper
bound on how long a shutdown request raised during the wait can go unnoticed
within it. -/
def maxUnpolledMs (ops : List WorkerOp) : Nat :=
  (ops.foldl
    (fun cb op =>
      match op with
      | .sleepMs n => (cb.1 + n, Nat.max cb.2 (cb.1 + n))
      | .pollExitFlag => (0, cb.2))
    ((0, 0) : Nat × Nat)).2

/-- Environment of one `connect_and_bridge` call: the result of the initial
device enumeration, then per retry-loop iteration the result of the open
attempt and of the re-enumeration after the 5-second wait, and the error that
eventually ends a successful stream (`read_telemetry_and_update` loops forever
and only returns `Err`). -/
structure CabEnv where
  found0 : Bool
  rounds : List (Bool × Bool)
  streamErr : DR2G27Error
deriving DecidableEq, Repr

/-- Outcome of one `connect_and_bridge` call. -/
inductive CabOutcome
  | processExit (code : Nat)
  | bridgeErr (e : DR2G27Error)
  | envExhausted
deriving DecidableEq, Repr

/-- The retry loop of `connect_and_bridge` (`main.rs` lines 136-155): when the
device is present and the open succeeds, stream until `streamErr`; otherwise
sleep 5 s, refresh, and re-enumerate. -/
def cabLoop (streamErr : DR2G27Error) : Bool → List (Bool × Bool) → CabOutcome
  | _, [] => .envExhausted
  | found, (openOk, nextFound) :: rest =>
      if found && openOk then .bridgeErr streamErr
      else cabLoop streamErr nextFound rest

/-- `connect_and_bridge` (`main.rs` lines 109-156): if the initial enumeration
finds no device and `require_wheel` is set, the process exits with status 1;
otherwise the retry loop runs. -/
def connect_and_bridge (require_wheel : Bool) (env : CabEnv) : CabOutcome :=
  if !env.found0 && require_wheel then .processExit 1
  else cabLoop env.streamErr env.found0 env.rounds

/-- Outcome of the worker loop of `run`. -/
inductive RunOutcome
  | exitedProcess (code : Nat)
  | stoppedByFlag
  | envExhausted
deriving DecidableEq, Repr

/-- The worker loop of `run` (`main.rs` lines 283-328), one list entry per
outer iteration: the exit-flag reading at the top of the iteration and the
environment of that iteration's `connect_and_bridge` call.  On a bridge error
the loop backs off (`errorBackoffWait`) and iterates; a `process::exit`
propagates.  (The settings re-read is omitted: it changes only which game/port
the next session uses, not the exit behaviour modelled here.) -/
def workerLoop (require_wheel : Bool) : List (Bool × CabEnv) → RunOutcome
  | [] => .envExhausted
  | (exitFlagSet, env) :: rest =>
      if exitFlagSet then .stoppedByFlag
      else
        match connect_and_bridge require_wheel env with
        | .processExit c => .exitedProcess c
        | .bridgeErr _ => workerLoop require_wheel rest
        | .envExhausted => .envExhausted

/-! ### Claim theorems: the Bridge Supervisor -/

/-- C5 (refuting evidence): the backoff the worker runs after a `DeviceLost`
failure (`G27ConnectionLostError`) sleeps 50 × 100 ms = 5000 ms — the very
same wait as after a `SocketBind` failure, not the claimed distinct 2-second
wait — even though the status message printed for it promises a retry in
2 seconds. -/
theorem C5_backoff_shared_5s :
    sleepTotal (errorBackoffWait .G27ConnectionLostError) = 5000 ∧
    errorBackoffWait .G27ConnectionLostError =
      errorBackoffWait .DR2UdpSocketError ∧
    errorStatusMessage .G27ConnectionLostError =
      "G27 connection lost - retrying in 2 seconds..." :=
  ⟨by decide, rfl, rfl⟩

/-- C6 (refuting evidence): with the `require_wheel` policy set, a first
session that finds and opens the device and then fails with `DeviceLost` is
followed by a second `connect_and_bridge` call; when that later session's
initial enumeration misses the (disconnected) device, the process exits with
status 1 — the hard-fail fires on a mid-session disconnect, not only at
startup.  Without the policy the same trace does not exit. -/
theorem C6_hard_fail_after_disconnect :
    connect_and_bridge true ⟨true, [(true, true)], .G27ConnectionLostError⟩ =
      .bridgeErr .G27ConnectionLostError ∧
    workerLoop true
      [(false, ⟨true, [(true, true)], .G27ConnectionLostError⟩),
        (false, ⟨false, [], .G27ConnectionLostError⟩)] = .exitedProcess 1 ∧
    connect_and_bridge false ⟨false, [], .G27ConnectionLostError⟩ ≠
      .processExit 1 :=
  ⟨rfl, rfl, by decide⟩

/-- C7 counterexample: the device-discovery loop's wait (`main.rs` line 152)
is a supervisor wait of 5000 ms — far longer than one 100 ms tick — during
which the cancellation flag is polled zero times, so a shutdown raised at its
start goes unnoticed for the full 5 seconds of that wait. -/
theorem C7_discovery_wait_unpolled :
    sleepTotal discoveryRetryWait = 5000 ∧ pollCount discoveryRetryWait = 0 ∧
    maxUnpolledMs discoveryRetryWait = 5000 := by decide

/-- C7 (amended): only the error-backoff wait is tick-sliced — it polls the
exit flag before every 100 ms sleep, so at most 100 ms of it can pass with a
raised shutdown flag unobserved; the 5-second discovery wait and the 1-second
restart wait perform no poll at all. -/
theorem C7_backoff_tick_polling :
    maxUnpolledMs (errorBackoffWait .DR2UdpSocketError) = 100 ∧
    maxUnpolledMs (errorBackoffWait .G27ConnectionLostError) = 100 ∧
    pollCount (errorBackoffWait .G27ConnectionLostError) = 50 ∧
    pollCount discoveryRetryWait = 0 ∧ pollCount bridgeRestartWait = 0 := by
  decide

end FH5G27
